import Mathlib

/-!
Shallow embedding of the `plp_edmodule` Django application
(`plp_edmodule/models.py`, `plp_edmodule/tasks.py`).

Modelling choices:
* Python `Decimal` and `float` arithmetic is embedded as exact rational
  arithmetic over `ℚ`; `Decimal.quantize(Decimal('.00'))` and Python's
  `round(x, n)` both round half-to-even, embedded by `roundHalfEven` /
  `quantize2`.
* Nullable database columns become `Option`; a Python expression that would
  raise an uncaught exception (e.g. arithmetic on `None`) is embedded as
  `Option.none` in the function's result.
* ORM querysets become explicit lists carried in the model structures;
  `objects.get(id=...)` becomes an association-list lookup.
* Timestamps are embedded at microsecond resolution as a day number plus a
  microsecond-of-day, matching `datetime.combine` with `time.min`/`time.max`.
-/

/-- Round a rational to the nearest integer, ties to even: the semantics of
Python's built-in `round` and of `Decimal.quantize` with default rounding. -/
def roundHalfEven (q : ℚ) : ℤ :=
  if q - (⌊q⌋ : ℚ) < 1/2 then ⌊q⌋
  else if 1/2 < q - (⌊q⌋ : ℚ) then ⌊q⌋ + 1
  else if ⌊q⌋ % 2 = 0 then ⌊q⌋ else ⌊q⌋ + 1

/-- Embedding of `Decimal(x).quantize(Decimal('.00'))` and of `round(x, 2)`:
round to two decimal places, ties to even. -/
def quantize2 (q : ℚ) : ℚ :=
  ((roundHalfEven (q * 100) : ℤ) : ℚ) / 100

/-- Embedding of Python truthiness for a nullable `Decimal` column:
`None` and zero are falsy, every other value truthy. -/
def decimalTruthy : Option ℚ → Bool
  | Option.none => false
  | Option.some d => decide (d ≠ 0)

/-- A `plp.models.CourseSession` row as used by
`EducationalModule.get_price_list`: its id, course foreign key and the two
enrollment timestamps (`datetime_start_enroll` nullable in the same way as
`datetime_end_enroll`). Timestamps are abstract instants on an `Int` line. -/
structure PSession where
  id : Nat
  course_id : Nat
  datetime_start_enroll : Option Int
  datetime_end_enroll : Option Int
deriving DecidableEq

/-- Course-level fields read by `EducationalModule.duration` /
`whole_work` when a course has no chosen session: `c.duration`,
`c.workload_from`, `c.workload_to` (all nullable). -/
structure CourseInfo where
  duration : Option Int
  workload_from : Option Int
  workload_to : Option Int
deriving DecidableEq

/-- Session-level fields read by `EducationalModule.duration` /
`whole_work` when a course has a chosen session: `s.get_duration()`,
`s.get_workload_from()`, `s.get_workload_to()` (all possibly `None`). -/
structure SessionInfo where
  duration : Option Int
  workload_from : Option Int
  workload_to : Option Int
deriving DecidableEq

/-- The state of an `EducationalModule` row together with the related rows
its pricing and aggregate methods read.
`courses` is the sorted many-to-many `self.courses.all()` as a list of course
ids; `sessions` is the `CourseSession` table restricted to relevant rows;
`verified_types` maps a session id to the `price` of its
`SessionEnrollmentType` with `mode='verified'` (later rows override earlier
ones, as in the Python dict build);
`first_session_to_buy` is the `(session id, price)` result of
`get_first_session_to_buy(None)` (its session choice depends on
`Course.next_session` from the external `plp` app, so it is carried as data);
`courses_with_closest_sessions` is the result of the property of the same
name: each non-project course paired with the session chosen by
`choose_closest_session` (a function of `plp_edmodule/utils.py`, outside the
modelled sources, so the pairing is carried as data). -/
structure EducationalModule where
  courses : List Nat
  discount : Int
  sum_ratings : Nat
  count_ratings : Nat
  sessions : List PSession
  verified_types : List (Nat × Nat)
  first_session_to_buy : Option (Nat × Nat)
  courses_with_closest_sessions : List (CourseInfo × Option SessionInfo)
deriving DecidableEq

/-- The dict returned by `EducationalModule.get_price_list`:
`{'courses': [(course, price), ...], 'price': int, 'whole_price': float,
'discount': int}` (courses are represented by their ids). -/
structure PriceList where
  courses : List (Nat × Nat)
  price : Nat
  whole_price : ℚ
  discount : Int
deriving DecidableEq

/-- The session rows eligible for price selection in `get_price_list`:
`CourseSession.objects.filter(course__in=courses.exclude(id__in=course_paid),
datetime_end_enroll__isnull=False, datetime_start_enroll__lt=now)
.exclude(id__in=course_paid)`. -/
def eligibleSessions (m : EducationalModule) (now : Int) (course_paid : List Nat) :
    List PSession :=
  m.sessions.filter (fun s =>
    decide (s.course_id ∈ m.courses) &&
    !(decide (s.course_id ∈ course_paid)) &&
    !(decide (s.id ∈ course_paid)) &&
    s.datetime_end_enroll.isSome &&
    (match s.datetime_start_enroll with
     | Option.some v => decide (v < now)
     | Option.none => false))

/-- Insert a session into a list kept in descending `datetime_end_enroll`
order (the `order_by('-datetime_end_enroll')` of `get_price_list`). -/
def insertByEndEnrollDesc (s : PSession) : List PSession → List PSession
  | [] => [s]
  | t :: ts =>
      if t.datetime_end_enroll.getD 0 ≤ s.datetime_end_enroll.getD 0 then
        s :: t :: ts
      else
        t :: insertByEndEnrollDesc s ts

/-- Sort sessions by descending `datetime_end_enroll`. -/
def sortByEndEnrollDesc : List PSession → List PSession
  | [] => []
  | s :: ss => insertByEndEnrollDesc s (sortByEndEnrollDesc ss)

/-- The `session_for_course` choice of `get_price_list`: among eligible
sessions ordered by descending `datetime_end_enroll`, the first one belonging
to the course. -/
def sessionForCourse (m : EducationalModule) (now : Int) (course_paid : List Nat)
    (c : Nat) : Option PSession :=
  (sortByEndEnrollDesc (eligibleSessions m now course_paid)).find?
    (fun s => s.course_id == c)

/-- Lookup in the `types` dict of `get_price_list` built by comprehension:
a later pair with the same session id overrides an earlier one. -/
def lookupVerified (l : List (Nat × Nat)) (sid : Nat) : Option Nat :=
  l.foldl (fun acc p => if p.1 = sid then Option.some p.2 else acc) Option.none

/-- The per-course price of `get_price_list`: `types.get(s.id, 0)` for the
chosen session, `0` when the course has none. -/
def coursePrice (m : EducationalModule) (now : Int) (course_paid : List Nat)
    (c : Nat) : Nat :=
  match sessionForCourse m now course_paid c with
  | Option.none => 0
  | Option.some s => (lookupVerified m.verified_types s.id).getD 0

/-- Embedding of `EducationalModule.get_price_list`. `course_paid` is the
list of course ids the user already paid for (empty when `for_user` is
`None`, as in `PromoCode.calculate`). -/
def EducationalModule.get_price_list (m : EducationalModule) (now : Int)
    (course_paid : List Nat) : PriceList :=
  let cs := m.courses.map (fun c => (c, coursePrice m now course_paid c))
  let price := (cs.map Prod.snd).sum
  { courses := cs
    price := price
    whole_price := (price : ℚ) * (1 - (m.discount : ℚ) / 100)
    discount := m.discount }

/-- Embedding of the non-project-course duration loop of
`EducationalModule.duration`: `d = s.get_duration() if s else c.duration`;
a `None` or zero `d` makes the whole property return `0` immediately. -/
def durationLoop (acc : Int) :
    List (CourseInfo × Option SessionInfo) → Int
  | [] => acc
  | (c, s) :: rest =>
      let d : Option Int :=
        match s with
        | Option.some si => si.duration
        | Option.none => c.duration
      match d with
      | Option.none => 0
      | Option.some dv => if dv = 0 then 0 else durationLoop (acc + dv) rest

/-- Embedding of `EducationalModule.duration`: the sum of course durations in
weeks over `courses_with_closest_sessions`, or `0` as soon as one is missing
or zero. -/
def EducationalModule.duration (m : EducationalModule) : Int :=
  durationLoop 0 m.courses_with_closest_sessions

/-- The per-course work of `EducationalModule.whole_work`. In the session
branch the source assigns `max_workload = s.get_workload_to` — the
unparenthesized bound method, which is never `None` — so its `is not None`
guard is vacuous and only `get_workload_from()` is really checked: with
`workload_from` present the code computes
`(get_duration() or 0) * int((get_workload_from() + get_workload_to()) / 2)`
and raises `TypeError` when `get_workload_to()` is `None`, embedded as
`Option.none`. The course branch genuinely guards on both fields and yields
`0` when one is missing. `int(x / 2)` is Python float division truncated
toward zero, embedded with `Int.tdiv`. -/
def workOf (c : CourseInfo) (s : Option SessionInfo) : Option Int :=
  match s with
  | Option.some si =>
      match si.workload_from with
      | Option.none => Option.some 0
      | Option.some wf =>
          match si.workload_to with
          | Option.none => Option.none
          | Option.some wt =>
              Option.some ((si.duration.getD 0) * ((wf + wt).tdiv 2))
  | Option.none =>
      match c.workload_from, c.workload_to with
      | Option.some wf, Option.some wt =>
          Option.some ((c.duration.getD 0) * ((wf + wt).tdiv 2))
      | _, _ => Option.some 0

/-- Embedding of the accumulation loop of `EducationalModule.whole_work`:
a zero per-course work makes the whole property return `0` immediately, and
a `TypeError` (`Option.none`) in a per-course work propagates. -/
def workLoop (acc : Int) :
    List (CourseInfo × Option SessionInfo) → Option Int
  | [] => Option.some acc
  | (c, s) :: rest =>
      match workOf c s with
      | Option.none => Option.none
      | Option.some w => if w = 0 then Option.some 0 else workLoop (acc + w) rest

/-- Embedding of `EducationalModule.whole_work`; `Option.none` is the
propagated `TypeError` of the vacuous workload guard. -/
def EducationalModule.whole_work (m : EducationalModule) : Option Int :=
  workLoop 0 m.courses_with_closest_sessions

/-- Embedding of `EducationalModule.workload`: the property reads
`self.whole_work` first, so its `TypeError` propagates; otherwise
`int(round(float(whole_work) / duration, 0))` guarded by `if self.duration:`,
else `0`. -/
def EducationalModule.workload (m : EducationalModule) : Option Int :=
  match m.whole_work with
  | Option.none => Option.none
  | Option.some work =>
      Option.some (if m.duration ≠ 0 then
        roundHalfEven ((work : ℚ) / (m.duration : ℚ))
      else 0)

/-- Embedding of `EducationalModule.get_rating`:
`round(float(sum_ratings) / count_ratings, 2)` guarded by
`if self.count_ratings:`, else `0`. -/
def EducationalModule.get_rating (m : EducationalModule) : ℚ :=
  if m.count_ratings ≠ 0 then
    quantize2 ((m.sum_ratings : ℚ) / (m.count_ratings : ℚ))
  else 0

/-- A `PromoCode` row. The `course` / `edmodule` foreign keys are carried as
the ids of the attached product (the validation and calculation paths under
study dereference them, so the row is modelled with the key set).
`active_till` is a date (day number); `discount_percent` and
`discount_price` are nullable decimals. -/
structure PromoCode where
  code : String
  product_type : String
  course_id : Nat
  edmodule_id : Nat
  active_till : Int
  max_usage : Nat
  used : Nat
  use_with_others : Bool
  discount_percent : Option ℚ
  discount_price : Option ℚ
deriving DecidableEq

/-- The `{'status': ..., 'message': ...}` dict returned by
`PromoCode.validate`. -/
structure VResult where
  status : Nat
  message : String
deriving DecidableEq

/-- The message `'Промокод не принадлежит ' + msg` where `msg` depends on the
requested product type. -/
def msgNotBelong (product_type : String) : String :=
  "Промокод не принадлежит " ++
    (if product_type = "course" then "данному курсу" else "данной специализации")

/-- Message for an exhausted usage cap. -/
def msgUsed : String := "Промокод уже был использован"

/-- Message for an expired promo code. -/
def msgExpired : String := "Срок действия промокода истек"

/-- Message for a valid promo code. -/
def msgValid : String := "Промокод действителен"

/-- Embedding of `PromoCode.validate(product_id, product_type)`; `today` is
`datetime.now().date()` as a day number. The two ownership guards are the
source's conjunctions verbatim: type is `edmodule` (resp. `course`), AND the
requested type differs, AND the attached product id differs. -/
def PromoCode.validate (pc : PromoCode) (product_id : Nat)
    (product_type : String) (today : Int) : VResult :=
  if pc.product_type = "edmodule" ∧ ¬pc.product_type = product_type ∧
      ¬pc.edmodule_id = product_id then
    ⟨1, msgNotBelong product_type⟩
  else if pc.product_type = "course" ∧ ¬pc.product_type = product_type ∧
      ¬pc.course_id = product_id then
    ⟨1, msgNotBelong product_type⟩
  else if pc.max_usage ≤ pc.used then
    ⟨1, msgUsed⟩
  else if pc.active_till < today then
    ⟨1, msgExpired⟩
  else
    ⟨0, msgValid⟩

/-- A value returned by `PromoCode.calculate`: a `{'status': 0, 'new_price'}`
dict, a `{'status': 1, 'message'}` dict, or Python's implicit `None` when the
product type is neither `'edmodule'` nor `'course'`. -/
inductive CalcResult where
  | ok (new_price : ℚ)
  | err (message : String)
  | nothing
deriving DecidableEq

/-- A `CourseSession` as read by the `'course'` branch of
`PromoCode.calculate`: `verified` is the `price` of
`get_verified_mode_enrollment_type()`, `Option.none` when there is none
(in which case Python would crash on `verified.price`). -/
structure CSession where
  verified : Option Nat
deriving DecidableEq

/-- The database rows `PromoCode.calculate` can reach:
`EducationalModule.objects` and `CourseSession.objects`, keyed by id. -/
structure Env where
  modules : List (Nat × EducationalModule)
  sessions : List (Nat × CSession)
deriving DecidableEq

/-- Lookup by primary key: `objects.get(id=i)`, `Option.none` when the row
does not exist (`ObjectDoesNotExist`). -/
def lookupById {α : Type} (l : List (Nat × α)) (i : Nat) : Option α :=
  (l.find? (fun p => p.1 == i)).map Prod.snd

/-- Error message of the missing-module branch. -/
def msgNoModule : String := "Не удалось найти специализацию"

/-- Error message of the missing-course branch. -/
def msgNoCourse : String := "Не удалось найти курс"

/-- Embedding of `PromoCode.calculate(product_id, only_first_course,
session_id)` against database `env` at time `now`. The outer `Option` is
`Option.none` exactly when the Python code would raise an uncaught
exception: indexing the `None` result of `get_first_session_to_buy`,
arithmetic on a `None` `discount_percent`, or `verified.price` on a session
without a verified enrollment type. -/
def PromoCode.calculate (pc : PromoCode) (env : Env) (now : Int)
    (product_id : Nat) (only_first_course : Bool) (session_id : Nat) :
    Option CalcResult :=
  if decimalTruthy pc.discount_price then
    Option.some (CalcResult.ok (pc.discount_price.getD 0))
  else if pc.product_type = "edmodule" then
    match lookupById env.modules product_id with
    | Option.none => Option.some (CalcResult.err msgNoModule)
    | Option.some m =>
      let pl := m.get_price_list now []
      let adjusted : Option PriceList :=
        if only_first_course then
          match m.first_session_to_buy with
          | Option.none => Option.none
          | Option.some fs =>
              Option.some { pl with
                price := fs.2
                whole_price := (fs.2 : ℚ) * (1 - (pl.discount : ℚ) / 100) }
        else Option.some pl
      match adjusted with
      | Option.none => Option.none
      | Option.some pl =>
        match pc.discount_percent with
        | Option.none => Option.none
        | Option.some dp =>
          if pc.use_with_others then
            Option.some (CalcResult.ok
              (quantize2 ((pl.price : ℚ) * (1 - (dp + (pl.discount : ℚ)) / 100))))
          else if (pl.discount : ℚ) > dp then
            Option.some (CalcResult.ok (quantize2 pl.whole_price))
          else
            Option.some (CalcResult.ok
              (quantize2 ((pl.price : ℚ) * (1 - dp / 100))))
  else if pc.product_type = "course" then
    match lookupById env.sessions session_id with
    | Option.none => Option.some (CalcResult.err msgNoCourse)
    | Option.some s =>
      match s.verified with
      | Option.none => Option.none
      | Option.some vp =>
        match pc.discount_percent with
        | Option.none => Option.none
        | Option.some dp =>
          Option.some (CalcResult.ok (quantize2 ((vp : ℚ) * (1 - dp / 100))))
  else
    Option.some CalcResult.nothing

/-- A timezone-naive datetime at microsecond resolution: a calendar day
number and the microsecond within that day (`datetime.time.max` is
microsecond `86399999999`). -/
structure DateTime where
  day : Int
  micro : Nat
deriving DecidableEq

/-- Microseconds in `datetime.time.max`, i.e. `23:59:59.999999`. -/
def maxTimeMicro : Nat := 86399999999

/-- The `≤` of datetimes: lexicographic on day then microsecond. -/
def dtLe (a b : DateTime) : Bool :=
  decide (a.day < b.day) || (decide (a.day = b.day) && decide (a.micro ≤ b.micro))

/-- `datetime.combine(d, time.min)`: midnight of day `d`. -/
def dayStart (d : Int) : DateTime := ⟨d, 0⟩

/-- `datetime.combine(d, time.max)`: the last representable instant of
day `d`. -/
def dayEnd (d : Int) : DateTime := ⟨d, maxTimeMicro⟩

/-- A `CourseSession` as read by the notification tasks of `tasks.py`. -/
structure TaskSession where
  datetime_starts : DateTime
  datetime_end_enroll : DateTime
deriving DecidableEq

/-- The `datetime_starts__range` filter of
`send_notification_module_course_starts` (Django `range` is inclusive on
both ends). -/
def startsTodayFilter (now : DateTime) (s : TaskSession) : Bool :=
  dtLe (dayStart now.day) s.datetime_starts &&
  dtLe s.datetime_starts (dayEnd now.day)

/-- The queryset of `send_notification_module_course_starts`: the sessions
each of which gets an `EdmoduleCourseStartsEmails(cs).send()`. -/
def send_notification_module_course_starts_qs (now : DateTime)
    (all_sessions : List TaskSession) : List TaskSession :=
  all_sessions.filter (startsTodayFilter now)

/-- The `datetime_end_enroll__range` filter of
`send_notification_module_course_enroll_ends`: the calendar day of
`now + timedelta(days=7)`. -/
def enrollEndsFilter (now : DateTime) (s : TaskSession) : Bool :=
  dtLe (dayStart (now.day + 7)) s.datetime_end_enroll &&
  dtLe s.datetime_end_enroll (dayEnd (now.day + 7))

/-- The queryset of `send_notification_module_course_enroll_ends`: the
sessions each of which gets an `EdmoduleCourseEnrollEndsEmails(cs).send()`. -/
def send_notification_module_course_enroll_ends_qs (now : DateTime)
    (all_sessions : List TaskSession) : List TaskSession :=
  all_sessions.filter (enrollEndsFilter now)

/-- A `celery.schedules.crontab(minute, hour)` schedule: fires daily at the
given minute and hour. -/
structure Crontab where
  minute : Nat
  hour : Nat
deriving DecidableEq

/-- The `run_every` schedule of `send_notification_module_course_starts`:
`crontab(minute=0, hour=0)`. -/
def course_starts_run_every : Crontab := ⟨0, 0⟩

/-- The `run_every` schedule of `send_notification_module_course_enroll_ends`:
`crontab(minute=0, hour=0)`. -/
def course_enroll_ends_run_every : Crontab := ⟨0, 0⟩

/-- A concrete module: one course (id 10) with an open session (id 100)
whose verified enrollment price is 1000, module discount 10 percent,
ratings 9 over 2 votes, and a 4-week course with workload bounds 2..4. -/
def exModule : EducationalModule :=
  { courses := [10]
    discount := 10
    sum_ratings := 9
    count_ratings := 2
    sessions := [⟨100, 10, Option.some (-5), Option.some 50⟩]
    verified_types := [(100, 1000)]
    first_session_to_buy := Option.some (100, 1000)
    courses_with_closest_sessions :=
      [(⟨Option.some 4, Option.some 2, Option.some 4⟩, Option.none)] }

/-- A concrete module with a 60 percent discount of its own and a verified
price of 100. -/
def exModuleNeg : EducationalModule :=
  { courses := [20]
    discount := 60
    sum_ratings := 0
    count_ratings := 0
    sessions := [⟨200, 20, Option.some (-5), Option.some 50⟩]
    verified_types := [(200, 100)]
    first_session_to_buy := Option.some (200, 100)
    courses_with_closest_sessions := [] }

/-- A concrete database: modules 1 and 2 and one course session (id 5). -/
def envEx : Env :=
  { modules := [(1, exModule), (2, exModuleNeg)]
    sessions := [(5, ⟨Option.some 300⟩)] }

/-- A 60 percent promo code for module 2, usable with other discounts. -/
def pcNeg : PromoCode :=
  { code := "NEG", product_type := "edmodule", course_id := 0, edmodule_id := 2,
    active_till := 10, max_usage := 5, used := 0, use_with_others := true,
    discount_percent := Option.some 60, discount_price := Option.none }

/-- A fresh, unexpired 10 percent promo code attached to module 1. -/
def pcC1 : PromoCode :=
  { code := "ABC", product_type := "edmodule", course_id := 0, edmodule_id := 1,
    active_till := 10, max_usage := 5, used := 0, use_with_others := true,
    discount_percent := Option.some 10, discount_price := Option.none }

/-- A 5 percent promo code for module 1, usable with other discounts. -/
def pcC2 : PromoCode :=
  { code := "C2", product_type := "edmodule", course_id := 0, edmodule_id := 1,
    active_till := 10, max_usage := 5, used := 0, use_with_others := true,
    discount_percent := Option.some 5, discount_price := Option.none }

/-- A 5 percent promo code for module 1, not combinable with other
discounts. -/
def pcC3 : PromoCode :=
  { code := "C3", product_type := "edmodule", course_id := 0, edmodule_id := 1,
    active_till := 10, max_usage := 5, used := 5, use_with_others := false,
    discount_percent := Option.some 5, discount_price := Option.none }

/-- An exhausted promo code with a fixed replacement price of 500. -/
def pcC4 : PromoCode :=
  { code := "C4", product_type := "edmodule", course_id := 0, edmodule_id := 1,
    active_till := 10, max_usage := 5, used := 5, use_with_others := false,
    discount_percent := Option.some 5, discount_price := Option.some 500 }

/-- A session starting on day 0 whose enrollment closes on day 7. -/
def tsEx : TaskSession := ⟨⟨0, 3600⟩, ⟨7, 5⟩⟩

/-- A module whose single non-project course has a chosen session with
`get_workload_from() = 2` but `get_workload_to() = None`: the state on which
`whole_work` raises `TypeError`. -/
def exModuleCrash : EducationalModule :=
  { courses := [30]
    discount := 0
    sum_ratings := 0
    count_ratings := 0
    sessions := []
    verified_types := []
    first_session_to_buy := Option.none
    courses_with_closest_sessions :=
      [(⟨Option.some 4, Option.some 2, Option.some 4⟩,
        Option.some ⟨Option.some 4, Option.some 2, Option.none⟩)] }

/-- Unfolding of the `whole_price` field of `get_price_list`:
`price * (1 - discount / 100.)`. -/
theorem get_price_list_whole_price_eq (m : EducationalModule) (now : Int)
    (course_paid : List Nat) :
    (m.get_price_list now course_paid).whole_price =
      ((m.get_price_list now course_paid).price : ℚ) * (1 - (m.discount : ℚ) / 100) := rfl

/-- A `None` or zero decimal column is falsy. -/
theorem decimalTruthy_eq_false (o : Option ℚ)
    (h : o = Option.none ∨ o = Option.some 0) : decimalTruthy o = false := by
  rcases h with h | h <;> simp [decimalTruthy, h]

/-- Evaluation of the `use_with_others` branch of `PromoCode.calculate` for
an existing module: the promo percent and the module discount are summed. -/
theorem calculate_edmodule_with_others_eq (pc : PromoCode) (env : Env) (now : Int)
    (pid sid : Nat) (m : EducationalModule) (d : ℚ)
    (hdp : pc.discount_price = Option.none ∨ pc.discount_price = Option.some 0)
    (hd : pc.discount_percent = Option.some d)
    (hty : pc.product_type = "edmodule")
    (hu : pc.use_with_others = true)
    (hm : lookupById env.modules pid = Option.some m) :
    pc.calculate env now pid false sid =
      Option.some (CalcResult.ok (quantize2
        (((m.get_price_list now []).price : ℚ) *
          (1 - (d + ((m.get_price_list now []).discount : ℚ)) / 100)))) := by
  simp only [PromoCode.calculate, decimalTruthy_eq_false pc.discount_price hdp,
    hty, hm, hd, hu]
  simp

/-- C2: for a promo code with a null or zero `discount_price`, a non-null
`discount_percent`, product type `edmodule`, `use_with_others` true and
`only_first_course` not true, when the module exists `calculate` returns
status 0 with new price `Decimal(price) * (1 - (percent + discount) / 100)`
quantized to two decimals, `price` and `discount` taken from the module's
`get_price_list`. -/
theorem calculate_edmodule_combined_discount (pc : PromoCode) (env : Env)
    (now : Int) (pid sid : Nat) (m : EducationalModule) (d : ℚ)
    (hdp : pc.discount_price = Option.none ∨ pc.discount_price = Option.some 0)
    (hd : pc.discount_percent = Option.some d)
    (hty : pc.product_type = "edmodule")
    (hu : pc.use_with_others = true)
    (hm : lookupById env.modules pid = Option.some m) :
    pc.calculate env now pid false sid =
      Option.some (CalcResult.ok (quantize2
        (((m.get_price_list now []).price : ℚ) *
          (1 - (d + ((m.get_price_list now []).discount : ℚ)) / 100)))) :=
  calculate_edmodule_with_others_eq pc env now pid sid m d hdp hd hty hu hm

/-- C2 witness: the 5 percent code `pcC2` on module 1 (price 1000, module
discount 10) yields 1000 * (1 - 15/100) = 850. -/
theorem calculate_edmodule_combined_discount_witness :
    pcC2.calculate envEx 0 1 false 0 = Option.some (CalcResult.ok 850) := by
  have h := calculate_edmodule_combined_discount pcC2 envEx 0 1 0 exModule 5
    (Or.inl rfl) rfl rfl rfl (by decide)
  rw [h]
  have hp : (exModule.get_price_list 0 []).price = 1000 := by decide
  have hd : (exModule.get_price_list 0 []).discount = 10 := by decide
  rw [hp, hd]
  norm_num [quantize2, roundHalfEven]

/-- C3: for a promo code with a null or zero `discount_price`, a non-null
`discount_percent`, product type `edmodule`, `use_with_others` false and
`only_first_course` not true, when the module exists `calculate` returns
status 0 and applies only the larger discount: the module's `whole_price`
quantized when the module discount strictly exceeds the promo percent, else
`Decimal(price) * (1 - percent / 100)` quantized. -/
theorem calculate_edmodule_exclusive_discount (pc : PromoCode) (env : Env)
    (now : Int) (pid sid : Nat) (m : EducationalModule) (d : ℚ)
    (hdp : pc.discount_price = Option.none ∨ pc.discount_price = Option.some 0)
    (hd : pc.discount_percent = Option.some d)
    (hty : pc.product_type = "edmodule")
    (hu : pc.use_with_others = false)
    (hm : lookupById env.modules pid = Option.some m) :
    pc.calculate env now pid false sid =
      Option.some (CalcResult.ok
        (if (((m.get_price_list now []).discount : ℚ)) > d then
          quantize2 (m.get_price_list now []).whole_price
        else
          quantize2 (((m.get_price_list now []).price : ℚ) * (1 - d / 100)))) := by
  simp only [PromoCode.calculate, decimalTruthy_eq_false pc.discount_price hdp,
    hty, hm, hd, hu]
  simp [apply_ite]
  split
  · intro hle
    linarith [lt_of_lt_of_le (by assumption : d < ((m.get_price_list now []).discount : ℚ)) hle]
  · intro hlt
    exact absurd hlt (by assumption)

/-- C3 witness: the non-combinable 5 percent code `pcC3` on module 1 (module
discount 10 > 5) yields the module `whole_price` 900. -/
theorem calculate_edmodule_exclusive_discount_witness :
    pcC3.calculate envEx 0 1 false 0 = Option.some (CalcResult.ok 900) := by
  have h := calculate_edmodule_exclusive_discount pcC3 envEx 0 1 0 exModule 5
    (Or.inl rfl) rfl rfl rfl (by decide)
  rw [h]
  have hp : (exModule.get_price_list 0 []).price = 1000 := by decide
  have hd : (exModule.get_price_list 0 []).discount = 10 := by decide
  rw [get_price_list_whole_price_eq, hp, hd]
  norm_num [quantize2, roundHalfEven, exModule]

/-- C4: a non-null, non-zero `discount_price` makes `calculate` return
status 0 with exactly that price, for every combination of the other
arguments and whatever the database contains: the fixed price overrides
everything. -/
theorem calculate_fixed_price_overrides (pc : PromoCode) (env : Env) (now : Int)
    (pid : Nat) (ofc : Bool) (sid : Nat) (p : ℚ)
    (hp : pc.discount_price = Option.some p) (hnz : p ≠ 0) :
    pc.calculate env now pid ofc sid = Option.some (CalcResult.ok p) := by
  have h1 : decimalTruthy pc.discount_price = true := by simp [decimalTruthy, hp, hnz]
  simp only [PromoCode.calculate, h1]
  simp [hp]

/-- C4 witness: `pcC4` has fixed price 500 and returns it even though it is
exhausted, `only_first_course` is set and the referenced ids do not exist. -/
theorem calculate_fixed_price_overrides_witness :
    pcC4.calculate envEx 0 99 true 77 = Option.some (CalcResult.ok 500) :=
  calculate_fixed_price_overrides pcC4 envEx 0 99 true 77 500 rfl (by norm_num)

/-- C7: with a falsy `discount_price`, a missing referenced product is
caught rather than propagated: a missing module gives status 1 with the
module message, a missing course session gives status 1 with the course
message. -/
theorem calculate_missing_product_handled (pc : PromoCode) (env : Env)
    (now : Int) (pid : Nat) (ofc : Bool) (sid : Nat)
    (hdp : pc.discount_price = Option.none ∨ pc.discount_price = Option.some 0) :
    (pc.product_type = "edmodule" → lookupById env.modules pid = Option.none →
      pc.calculate env now pid ofc sid = Option.some (CalcResult.err msgNoModule)) ∧
    (pc.product_type = "course" → lookupById env.sessions sid = Option.none →
      pc.calculate env now pid ofc sid = Option.some (CalcResult.err msgNoCourse)) := by
  constructor
  · intro hty hlook
    simp only [PromoCode.calculate, decimalTruthy_eq_false pc.discount_price hdp,
      hty, hlook]
    simp
  · intro hty hlook
    simp only [PromoCode.calculate, decimalTruthy_eq_false pc.discount_price hdp,
      hty, hlook]
    simp

/-- C7 witness: module 99 does not exist in `envEx`, so `pcC2` calculates to
status 1 with the missing-module message. -/
theorem calculate_missing_product_handled_witness :
    pcC2.calculate envEx 0 99 false 0 = Option.some (CalcResult.err msgNoModule) :=
  (calculate_missing_product_handled pcC2 envEx 0 99 false 0 (Or.inl rfl)).1 rfl
    (by decide)

/-- C10: the combined-discount formula has no lower bound: the concrete
60 percent code `pcNeg` with `use_with_others` on module 2, which itself has
a 60 percent discount and a positive price of 100, yields status 0 with the
strictly negative new price -20. -/
theorem calculate_combined_discount_negative_price :
    pcNeg.use_with_others = true ∧
    pcNeg.discount_percent = Option.some 60 ∧
    (exModuleNeg.get_price_list 0 []).price = 100 ∧
    (exModuleNeg.get_price_list 0 []).discount = 60 ∧
    pcNeg.calculate envEx 0 2 false 0 = Option.some (CalcResult.ok (-20)) ∧
    ((-20 : ℚ) < 0) := by
  refine ⟨rfl, rfl, by decide, by decide, ?_, by norm_num⟩
  have h := calculate_edmodule_with_others_eq pcNeg envEx 0 2 0 exModuleNeg 60
    (Or.inl rfl) rfl rfl rfl (by decide)
  rw [h]
  have hp : (exModuleNeg.get_price_list 0 []).price = 100 := by decide
  have hd : (exModuleNeg.get_price_list 0 []).discount = 60 := by decide
  rw [hp, hd]
  norm_num [quantize2, roundHalfEven]

/-- C1 counterexample: `pcC1` is attached to module 1; requesting validation
for module 2 of the same product type returns status 0, although the claim
requires status 1 whenever the product id differs. -/
theorem validate_same_type_wrong_id_accepted :
    pcC1.product_type = "edmodule" ∧ pcC1.edmodule_id = 1 ∧ (1 : Nat) ≠ 2 ∧
    pcC1.used < pcC1.max_usage ∧ (0 : Int) ≤ pcC1.active_till ∧
    (pcC1.validate 2 "edmodule" 0).status = 0 := by decide

/-- C1 (amended): `validate` returns the ownership error only when BOTH the
requested product type differs from the code's type AND the requested id
differs from the attached product's id; when either one matches, the
ownership guard passes and the result is decided by the usage and expiry
checks alone. -/
theorem validate_ownership_requires_both_mismatches (pc : PromoCode) (pid : Nat)
    (ptype : String) (today : Int) :
    (pc.product_type = "edmodule" →
      ((ptype = "edmodule" ∨ pc.edmodule_id = pid) →
        pc.validate pid ptype today =
          (if pc.max_usage ≤ pc.used then ⟨1, msgUsed⟩
           else if pc.active_till < today then ⟨1, msgExpired⟩
           else ⟨0, msgValid⟩)) ∧
      (ptype ≠ "edmodule" → pc.edmodule_id ≠ pid →
        pc.validate pid ptype today = ⟨1, msgNotBelong ptype⟩)) ∧
    (pc.product_type = "course" →
      ((ptype = "course" ∨ pc.course_id = pid) →
        pc.validate pid ptype today =
          (if pc.max_usage ≤ pc.used then ⟨1, msgUsed⟩
           else if pc.active_till < today then ⟨1, msgExpired⟩
           else ⟨0, msgValid⟩)) ∧
      (ptype ≠ "course" → pc.course_id ≠ pid →
        pc.validate pid ptype today = ⟨1, msgNotBelong ptype⟩)) := by
  constructor
  · intro hty
    constructor
    · intro hmatch
      have hc1 : ¬(pc.product_type = "edmodule" ∧ ¬pc.product_type = ptype ∧
          ¬pc.edmodule_id = pid) := by
        rcases hmatch with h | h
        · exact fun hc => hc.2.1 (hty.trans h.symm)
        · exact fun hc => hc.2.2 h
      have hc2 : ¬(pc.product_type = "course" ∧ ¬pc.product_type = ptype ∧
          ¬pc.course_id = pid) := by
        intro hc
        rw [hty] at hc
        exact absurd hc.1 (by decide)
      simp only [PromoCode.validate, if_neg hc1, if_neg hc2]
    · intro hne hid
      have hc1 : pc.product_type = "edmodule" ∧ ¬pc.product_type = ptype ∧
          ¬pc.edmodule_id = pid :=
        ⟨hty, fun hc => hne (hc.symm.trans hty), hid⟩
      simp only [PromoCode.validate, if_pos hc1]
  · intro hty
    constructor
    · intro hmatch
      have hc1 : ¬(pc.product_type = "edmodule" ∧ ¬pc.product_type = ptype ∧
          ¬pc.edmodule_id = pid) := by
        intro hc
        rw [hty] at hc
        exact absurd hc.1 (by decide)
      have hc2 : ¬(pc.product_type = "course" ∧ ¬pc.product_type = ptype ∧
          ¬pc.course_id = pid) := by
        rcases hmatch with h | h
        · exact fun hc => hc.2.1 (hty.trans h.symm)
        · exact fun hc => hc.2.2 h
      simp only [PromoCode.validate, if_neg hc1, if_neg hc2]
    · intro hne hid
      have hc1 : ¬(pc.product_type = "edmodule" ∧ ¬pc.product_type = ptype ∧
          ¬pc.edmodule_id = pid) := by
        intro hc
        rw [hty] at hc
        exact absurd hc.1 (by decide)
      have hc2 : pc.product_type = "course" ∧ ¬pc.product_type = ptype ∧
          ¬pc.course_id = pid :=
        ⟨hty, fun hc => hne (hc.symm.trans hty), hid⟩
      simp only [PromoCode.validate, if_neg hc1, if_pos hc2]

/-- C1 witness: a request with the wrong product type but the matching
attached id passes the ownership guard and validates with status 0. -/
theorem validate_ownership_requires_both_mismatches_witness :
    pcC1.validate 1 "course" 0 = ⟨0, msgValid⟩ := by
  have h := ((validate_ownership_requires_both_mismatches pcC1 1 "course" 0).1
    rfl).1 (Or.inr rfl)
  rw [h]
  decide

/-- C5: when the code's product matches the request, the usage cap is
checked before expiry — `used >= max_usage` gives the already-used error for
every `today` — and a code with remaining uses and `active_till` on or after
today validates with status 0. -/
theorem validate_usage_cap_before_expiry (pc : PromoCode) (pid : Nat)
    (ptype : String) (today : Int)
    (htype : pc.product_type = ptype)
    (_hid1 : pc.product_type = "edmodule" → pc.edmodule_id = pid)
    (_hid2 : pc.product_type = "course" → pc.course_id = pid) :
    (pc.max_usage ≤ pc.used →
      pc.validate pid ptype today = ⟨1, msgUsed⟩) ∧
    (pc.used < pc.max_usage → today ≤ pc.active_till →
      pc.validate pid ptype today = ⟨0, msgValid⟩) := by
  have hc1 : ¬(pc.product_type = "edmodule" ∧ ¬pc.product_type = ptype ∧
      ¬pc.edmodule_id = pid) := fun hc => hc.2.1 htype
  have hc2 : ¬(pc.product_type = "course" ∧ ¬pc.product_type = ptype ∧
      ¬pc.course_id = pid) := fun hc => hc.2.1 htype
  constructor
  · intro h
    simp only [PromoCode.validate, if_neg hc1, if_neg hc2, if_pos h]
  · intro h1 h2
    simp only [PromoCode.validate, if_neg hc1, if_neg hc2,
      if_neg (not_le.mpr h1), if_neg (not_lt.mpr h2)]

/-- C5 witness: the fresh, unexpired code `pcC1` on its own module 1
validates with status 0. -/
theorem validate_usage_cap_before_expiry_witness :
    pcC1.validate 1 "edmodule" 0 = ⟨0, msgValid⟩ :=
  (validate_usage_cap_before_expiry pcC1 1 "edmodule" 0 rfl (fun _ => rfl)
    (fun hc => absurd hc (by decide))).2 (by decide) (by decide)

/-- Half-even rounding moves a rational by at most one half. -/
theorem abs_roundHalfEven_sub_le (q : ℚ) : |(roundHalfEven q : ℚ) - q| ≤ 1/2 := by
  have hfl : (⌊q⌋ : ℚ) ≤ q := Int.floor_le q
  have hfu : q < (⌊q⌋ : ℚ) + 1 := Int.lt_floor_add_one q
  unfold roundHalfEven
  split_ifs with h1 h2 h3 <;> rw [abs_le] <;> push_cast <;> constructor <;> linarith

/-- Quantizing to two decimals moves a rational by at most 1/200. -/
theorem abs_quantize2_sub_le (q : ℚ) : |quantize2 q - q| ≤ 1/200 := by
  have h : quantize2 q - q = ((roundHalfEven (q * 100) : ℚ) - q * 100) / 100 := by
    unfold quantize2
    ring
  rw [h, abs_div]
  have h100 : |(100 : ℚ)| = 100 := by norm_num
  rw [h100]
  linarith [abs_roundHalfEven_sub_le (q * 100)]

/-- C9 counterexample: `workload` is not total on every module state — on
`exModuleCrash`, whose chosen session has `get_workload_from() = 2` but
`get_workload_to() = None`, the vacuous guard of `whole_work`
(`max_workload` is the unparenthesized bound method `s.get_workload_to`,
never `None`) lets the addition reach the `None` and raise `TypeError`,
which `workload` propagates instead of returning a number. -/
theorem workload_crashes_on_vacuous_guard :
    exModuleCrash.courses_with_closest_sessions =
      [(⟨Option.some 4, Option.some 2, Option.some 4⟩,
        Option.some ⟨Option.some 4, Option.some 2, Option.none⟩)] ∧
    exModuleCrash.whole_work = Option.none ∧
    exModuleCrash.workload = Option.none := by decide

/-- C9 (amended): the aggregate accessors never divide by zero, but only
`get_rating` is total on every module state: it is 0 when `count_ratings`
is 0 and otherwise `sum_ratings / count_ratings` rounded to two decimals
(within 1/200 of the exact quotient). Whenever `whole_work` evaluates
without the `TypeError` of its vacuous workload guard, `workload` is 0 when
`duration` is 0 and otherwise the rounded quotient `whole_work / duration`
(within one half of the exact quotient); when `whole_work` raises,
`workload` propagates the exception. -/
theorem module_aggregates_no_div_by_zero (m : EducationalModule) :
    (∀ work : Int, m.whole_work = Option.some work →
      (m.duration = 0 → m.workload = Option.some 0) ∧
      (m.duration ≠ 0 →
        m.workload = Option.some (roundHalfEven ((work : ℚ) / (m.duration : ℚ))) ∧
        |((roundHalfEven ((work : ℚ) / (m.duration : ℚ))) : ℚ) -
          (work : ℚ) / (m.duration : ℚ)| ≤ 1/2)) ∧
    (m.whole_work = Option.none → m.workload = Option.none) ∧
    (m.count_ratings = 0 → m.get_rating = 0) ∧
    (m.count_ratings ≠ 0 →
      m.get_rating = quantize2 ((m.sum_ratings : ℚ) / (m.count_ratings : ℚ)) ∧
      |m.get_rating - (m.sum_ratings : ℚ) / (m.count_ratings : ℚ)| ≤ 1/200) := by
  refine ⟨?_, ?_, ?_, ?_⟩
  · intro work hwork
    constructor
    · intro h
      simp [EducationalModule.workload, hwork, h]
    · intro h
      refine ⟨by simp [EducationalModule.workload, hwork, h], ?_⟩
      exact abs_roundHalfEven_sub_le _
  · intro h
    simp [EducationalModule.workload, h]
  · intro h
    simp [EducationalModule.get_rating, h]
  · intro h
    have heq : m.get_rating = quantize2 ((m.sum_ratings : ℚ) / (m.count_ratings : ℚ)) := by
      simp [EducationalModule.get_rating, h]
    exact ⟨heq, heq ▸ abs_quantize2_sub_le _⟩

/-- C9 witness: `exModule` has duration 4 weeks, whole work 12 hours, and a
workload equal to the rounded quotient. -/
theorem module_aggregates_no_div_by_zero_witness :
    exModule.whole_work = Option.some 12 ∧ exModule.duration ≠ 0 ∧
    exModule.workload =
      Option.some (roundHalfEven (((12 : Int) : ℚ) / (exModule.duration : ℚ))) := by
  refine ⟨by decide, by decide, ?_⟩
  exact (((module_aggregates_no_div_by_zero exModule).1 12 (by decide)).2 (by decide)).1

/-- C6: `get_price_list` pairs every module course exactly once with a
price, `price` is the sum of those prices, a course with no chosen session
or no verified enrollment type contributes 0, `discount` is the module
field, `whole_price` equals `price * (1 - discount/100)`, and with the
discount within 0..100 the whole price lies between 0 and `price`. -/
theorem get_price_list_shape (m : EducationalModule) (now : Int)
    (course_paid : List Nat) (h0 : 0 ≤ m.discount) (h1 : m.discount ≤ 100) :
    ((m.get_price_list now course_paid).courses.map Prod.fst = m.courses) ∧
    ((m.get_price_list now course_paid).price =
      ((m.get_price_list now course_paid).courses.map Prod.snd).sum) ∧
    (∀ p ∈ (m.get_price_list now course_paid).courses,
      sessionForCourse m now course_paid p.1 = Option.none → p.2 = 0) ∧
    (∀ p ∈ (m.get_price_list now course_paid).courses, ∀ s : PSession,
      sessionForCourse m now course_paid p.1 = Option.some s →
      lookupVerified m.verified_types s.id = Option.none → p.2 = 0) ∧
    ((m.get_price_list now course_paid).discount = m.discount) ∧
    ((m.get_price_list now course_paid).whole_price =
      ((m.get_price_list now course_paid).price : ℚ) * (1 - (m.discount : ℚ) / 100)) ∧
    0 ≤ (m.get_price_list now course_paid).whole_price ∧
    (m.get_price_list now course_paid).whole_price ≤
      ((m.get_price_list now course_paid).price : ℚ) := by
  have hd0 : (0 : ℚ) ≤ (m.discount : ℚ) := by exact_mod_cast h0
  have hd1 : (m.discount : ℚ) ≤ 100 := by exact_mod_cast h1
  have hP : (0 : ℚ) ≤ ((m.get_price_list now course_paid).price : ℚ) :=
    Nat.cast_nonneg _
  refine ⟨?_, rfl, ?_, ?_, rfl, rfl, ?_, ?_⟩
  · simp [EducationalModule.get_price_list, List.map_map, Function.comp_def]
  · intro p hp hnone
    simp only [EducationalModule.get_price_list, List.mem_map] at hp
    obtain ⟨c, hc, rfl⟩ := hp
    simp only [coursePrice] at hnone ⊢
    rw [hnone]
  · intro p hp s hs hlook
    simp only [EducationalModule.get_price_list, List.mem_map] at hp
    obtain ⟨c, hc, rfl⟩ := hp
    simp only [coursePrice] at hs ⊢
    rw [hs]
    simp [hlook]
  · rw [get_price_list_whole_price_eq]
    have ht : (0 : ℚ) ≤ 1 - (m.discount : ℚ) / 100 := by linarith
    exact mul_nonneg hP ht
  · rw [get_price_list_whole_price_eq]
    have ht : 1 - (m.discount : ℚ) / 100 ≤ 1 := by linarith
    exact mul_le_of_le_one_right hP ht

/-- C6 witness: the price list of `exModule` (discount 10) pairs its single
course with price 1000. -/
theorem get_price_list_shape_witness :
    0 ≤ exModule.discount ∧ exModule.discount ≤ 100 ∧
    ((exModule.get_price_list 0 []).courses.map Prod.fst = exModule.courses) ∧
    (exModule.get_price_list 0 []).price = 1000 := by
  refine ⟨by decide, by decide, ?_, by decide⟩
  exact (get_price_list_shape exModule 0 [] (by decide) (by decide)).1

/-- C8: a session receives the course-starts notification exactly when its
`datetime_starts` falls on the calendar day of the run, and the
enroll-ends notification exactly when its `datetime_end_enroll` falls on the
calendar day seven days after the run; both tasks are scheduled daily at
midnight (`crontab(minute=0, hour=0)`). -/
theorem notification_tasks_select_calendar_day (now : DateTime)
    (all_sessions : List TaskSession) (s : TaskSession)
    (h1 : s.datetime_starts.micro ≤ maxTimeMicro)
    (h2 : s.datetime_end_enroll.micro ≤ maxTimeMicro) :
    (s ∈ send_notification_module_course_starts_qs now all_sessions ↔
      s ∈ all_sessions ∧ s.datetime_starts.day = now.day) ∧
    (s ∈ send_notification_module_course_enroll_ends_qs now all_sessions ↔
      s ∈ all_sessions ∧ s.datetime_end_enroll.day = now.day + 7) ∧
    course_starts_run_every = ⟨0, 0⟩ ∧
    course_enroll_ends_run_every = ⟨0, 0⟩ := by
  refine ⟨?_, ?_, rfl, rfl⟩
  · rw [send_notification_module_course_starts_qs, List.mem_filter]
    simp only [startsTodayFilter, dtLe, dayStart, dayEnd, Bool.and_eq_true,
      Bool.or_eq_true, decide_eq_true_eq]
    constructor
    · rintro ⟨hmem, hf⟩
      refine ⟨hmem, ?_⟩
      omega
    · rintro ⟨hmem, hday⟩
      refine ⟨hmem, ?_⟩
      omega
  · rw [send_notification_module_course_enroll_ends_qs, List.mem_filter]
    simp only [enrollEndsFilter, dtLe, dayStart, dayEnd, Bool.and_eq_true,
      Bool.or_eq_true, decide_eq_true_eq]
    constructor
    · rintro ⟨hmem, hf⟩
      refine ⟨hmem, ?_⟩
      omega
    · rintro ⟨hmem, hday⟩
      refine ⟨hmem, ?_⟩
      omega

/-- C8 witness: the session `tsEx` starting on day 0 with enrollment ending
on day 7 is selected by both tasks when run on day 0. -/
theorem notification_tasks_select_calendar_day_witness :
    tsEx ∈ send_notification_module_course_starts_qs ⟨0, 12⟩ [tsEx] ∧
    tsEx ∈ send_notification_module_course_enroll_ends_qs ⟨0, 12⟩ [tsEx] := by
  have h := notification_tasks_select_calendar_day ⟨0, 12⟩ [tsEx] tsEx
    (by decide) (by decide)
  exact ⟨h.1.mpr ⟨List.mem_singleton.mpr rfl, rfl⟩,
    h.2.1.mpr ⟨List.mem_singleton.mpr rfl, rfl⟩⟩
